import Mathlib

set_option maxHeartbeats 1000000

/-!
A verification development for the request-orchestration core of the
Morphic file-conversion server.

The definitions below are a shallow embedding, translated from the
TypeScript sources:

* `server/src/routes/convert.ts` — the universal convert dispatcher and
  its HTTP route;
* `server/src/utils/exec.ts` — the process runner;
* `server/src/utils/tempfile.ts` — the temp workspace manager;
* `server/src/services/pdf.service.ts` — the PDF operation handlers;
* `server/src/services/document.service.ts`, `image.service.ts`,
  `video.service.ts`, `ocr.service.ts` — the conversion services;
* `server/src/routes/split.ts` — the split route.

Modelling conventions:

* A parsed PDF document is its page list; pages are identified by
  natural numbers, and for the rotate handler a page is identified with
  its rotation value.  The pdf-lib page-tree library is modelled by
  list operations; indexing a page outside the page list throws in
  pdf-lib (`copyPages` reads an undefined entry of the page array,
  `getPage` asserts the range), which the embedding renders as
  `Except.error`.
* External effects (spawned processes, file existence probes, file
  reads, OCR engines) are inputs to each modelled function: a value of
  type `Except String ExecResult` stands for one awaited `exec(...)`
  call that either resolves or rejects, a `Bool` stands for one
  `fs.existsSync` probe, and so on.  A JavaScript `try/finally` is
  rendered by computing the body result (an `Except`) and applying the
  `finally` action unconditionally.
* The file system, as far as the temp-workspace claims need it, is the
  list of existing temp directories, keyed by numbers; `fs.rmSync` with
  the recursive and force flags removes the directory and everything
  below it.
* JavaScript string primitives are re-implemented by structural
  recursion on the character list so that concrete instances evaluate
  inside the kernel.
-/

namespace Morphic

-- ─── JavaScript string primitives ───────────────────────────────────

/-- Model of JavaScript `toLowerCase` on the ASCII tokens (extensions,
format names) the server handles. -/
def lowerAscii (s : String) : String := String.mk (s.data.map Char.toLower)

/-- Split a character list at every occurrence of a separator, the
semantics of JavaScript `split` with a one-character separator. -/
def splitCharList (sep : Char) : List Char → List (List Char)
  | [] => [[]]
  | c :: rest =>
    if c == sep then [] :: splitCharList sep rest
    else
      match splitCharList sep rest with
      | [] => [[c]]
      | g :: gs => (c :: g) :: gs

/-- JavaScript `s.split(sep)` for a one-character separator. -/
def jsSplit (s : String) (sep : Char) : List String :=
  (splitCharList sep s.data).map String.mk

/-- Model of JavaScript `String.replace(pat, repl)` with a
one-character string pattern, which replaces only the first
occurrence. -/
def jsReplaceFirst (s : String) (pat : Char) (repl : String) : String :=
  match jsSplit s pat with
  | [] => s
  | [_] => s
  | x :: rest => x ++ repl ++ String.intercalate (String.mk [pat]) rest

def isJsSpace (c : Char) : Bool :=
  c == ' ' || c == '\t' || c == '\n' || c == '\r'

/-- Model of JavaScript `trim`. -/
def jsTrim (s : String) : String :=
  String.mk (((s.data.dropWhile isJsSpace).reverse.dropWhile isJsSpace).reverse)

def parseDigits : List Char → Nat → Option Nat
  | [], acc => some acc
  | c :: rest, acc =>
    if c.isDigit then parseDigits rest (acc * 10 + (c.toNat - 48)) else none

/-- Model of JavaScript `Number(s)` on the integral inputs the range
parser meets: the empty (or all-blank) string is 0, an optional sign
followed by digits is that integer, anything else is NaN (`none`). -/
def jsNumber (s : String) : Option Int :=
  match (jsTrim s).data with
  | [] => some (0 : Int)
  | '-' :: [] => none
  | '-' :: rest => (parseDigits rest 0).map (fun n => -(n : Int))
  | '+' :: [] => none
  | '+' :: rest => (parseDigits rest 0).map (fun n => (n : Int))
  | l => (parseDigits l 0).map (fun n => (n : Int))

/-- Model of JavaScript `a || b` on strings: the empty string is falsy,
so it falls through to the default. -/
def jsOr (o : Option String) (d : String) : String :=
  match o with
  | some s => if s == "" then d else s
  | none => d

/-- Model of JavaScript `s.includes(pat)` for a non-empty pattern. -/
def jsIncludes (s pat : String) : Bool := (s.splitOn pat).length ≥ 2

-- ─── Format classifiers ─────────────────────────────────────────────
-- From `document.service.ts` and `video.service.ts`.

def OFFICE_EXTENSIONS : List String :=
  ["doc", "docx", "xls", "xlsx", "ppt", "pptx",
   "odt", "ods", "odp", "odg",
   "rtf", "txt", "csv", "html", "htm",
   "wpd", "wps", "xml"]

def isOfficeFormat (ext : String) : Bool :=
  OFFICE_EXTENSIONS.contains (jsReplaceFirst (lowerAscii ext) '.' "")

def EBOOK_EXTENSIONS : List String :=
  ["epub", "mobi", "azw3", "fb2", "lit", "pdb", "cbz", "cbr"]

def isEbookFormat (ext : String) : Bool :=
  EBOOK_EXTENSIONS.contains (jsReplaceFirst (lowerAscii ext) '.' "")

def VIDEO_EXTENSIONS : List String :=
  ["mp4", "avi", "mkv", "webm", "mov", "flv", "wmv", "ts", "m4v", "3gp"]

def AUDIO_EXTENSIONS : List String :=
  ["mp3", "wav", "aac", "ogg", "flac", "wma", "m4a", "opus"]

def isVideoFormat (ext : String) : Bool :=
  VIDEO_EXTENSIONS.contains (jsReplaceFirst (lowerAscii ext) '.' "")

def isAudioFormat (ext : String) : Bool :=
  AUDIO_EXTENSIONS.contains (jsReplaceFirst (lowerAscii ext) '.' "")

/-- The image classifier local to `convert.ts` (takes an already
lowercased extension). -/
def isImageFormat (ext : String) : Bool :=
  ["png", "jpg", "jpeg", "webp", "tiff", "avif", "gif", "bmp",
   "svg", "ico", "heic", "heif"].contains ext

-- ─── Supported-conversions table (`getSupportedConversions`) ────────

structure SupportedConversions where
  documentsToPdf : List String
  documentsFromPdf : List String
  imageFormats : List String
  imagesToPdf : Bool
  imagesFromPdf : Bool
  videoFormats : List String
  audioFormats : List String
  ebookFormats : List String
deriving DecidableEq, Repr

def getSupportedConversions : SupportedConversions where
  documentsToPdf :=
    ["doc", "docx", "xls", "xlsx", "ppt", "pptx", "odt", "ods", "odp",
     "rtf", "txt", "csv", "html", "md"]
  documentsFromPdf := ["docx", "xlsx", "pptx", "odt", "txt", "html", "csv", "rtf"]
  imageFormats :=
    ["png", "jpg", "jpeg", "webp", "tiff", "avif", "gif", "bmp",
     "svg", "ico", "heic", "heif"]
  imagesToPdf := true
  imagesFromPdf := true
  videoFormats := ["mp4", "avi", "mkv", "webm", "mov", "flv", "wmv", "gif"]
  audioFormats := ["mp3", "wav", "aac", "ogg", "flac"]
  ebookFormats := ["epub", "mobi", "azw3", "fb2", "pdf"]

-- ─── Universal convert dispatcher (`convert.ts`, router.post) ──────

/-- The conversion services the dispatcher can invoke. -/
inductive Service where
  | officeToPdf
  | pdfToOffice
  | pdfToImages
  | imagesToPdf
  | convertImage
  | convertVideo
  | convertEbook
  | htmlToPdf
  | markdownToPdf
deriving DecidableEq, Repr

inductive ConvertDecision where
  | invoke (s : Service)
  | unsupported (error : String) (supported : SupportedConversions)
deriving DecidableEq, Repr

def unsupportedMsg (inputExt targetFormat : String) : String :=
  "Conversion from ." ++ inputExt ++ " to ." ++ targetFormat ++ " is not supported"

/-- The dispatcher, translated branch by branch from the if/else chain
of `router.post` in `convert.ts` (lines 38-114).  Both ebook branches
call the same `convertEbook` service. -/
def dispatch (inputExt targetFormat : String) : ConvertDecision :=
  if isOfficeFormat inputExt && targetFormat == "pdf" then .invoke .officeToPdf
  else if inputExt == "pdf" && isOfficeFormat targetFormat then .invoke .pdfToOffice
  else if inputExt == "pdf" && isImageFormat targetFormat then .invoke .pdfToImages
  else if isImageFormat inputExt && targetFormat == "pdf" then .invoke .imagesToPdf
  else if isImageFormat inputExt && isImageFormat targetFormat then .invoke .convertImage
  else if (isVideoFormat inputExt || isAudioFormat inputExt) &&
          (isVideoFormat targetFormat || isAudioFormat targetFormat) then .invoke .convertVideo
  else if isEbookFormat inputExt && (targetFormat == "pdf" || isEbookFormat targetFormat) then
    .invoke .convertEbook
  else if inputExt == "pdf" && isEbookFormat targetFormat then .invoke .convertEbook
  else if (inputExt == "html" || inputExt == "htm") && targetFormat == "pdf" then .invoke .htmlToPdf
  else if inputExt == "md" && targetFormat == "pdf" then .invoke .markdownToPdf
  else if targetFormat == "pdf" then .invoke .officeToPdf
  else .unsupported (unsupportedMsg inputExt targetFormat) getSupportedConversions

/-- One format-pair rule: a predicate on (input extension, target
format) and the service it selects. -/
def ConvertRule : Type := (String → String → Bool) × Service

/-- The ordered rule table of the dispatcher, excluding the final
fallback rule. -/
def earlierConvertRules : List ConvertRule :=
  [(fun e t => isOfficeFormat e && t == "pdf", .officeToPdf),
   (fun e t => e == "pdf" && isOfficeFormat t, .pdfToOffice),
   (fun e t => e == "pdf" && isImageFormat t, .pdfToImages),
   (fun e t => isImageFormat e && t == "pdf", .imagesToPdf),
   (fun e t => isImageFormat e && isImageFormat t, .convertImage),
   (fun e t => (isVideoFormat e || isAudioFormat e) && (isVideoFormat t || isAudioFormat t),
     .convertVideo),
   (fun e t => isEbookFormat e && (t == "pdf" || isEbookFormat t), .convertEbook),
   (fun e t => e == "pdf" && isEbookFormat t, .convertEbook),
   (fun e t => (e == "html" || e == "htm") && t == "pdf", .htmlToPdf),
   (fun e t => e == "md" && t == "pdf", .markdownToPdf)]

/-- The final fallback rule: anything whose target is `pdf` is tried
with the office-document converter. -/
def fallbackRule : ConvertRule := (fun _ t => t == "pdf", .officeToPdf)

def convertRules : List ConvertRule := earlierConvertRules ++ [fallbackRule]

/-- First-match-wins evaluation of an ordered rule list. -/
def firstRuleMatch : List ConvertRule → String → String → Option Service
  | [], _, _ => none
  | r :: rest, e, t => if r.1 e t then some r.2 else firstRuleMatch rest e t

/-- The decision produced by first-match-wins evaluation, with a
default for the no-match case. -/
def decisionOfRules (rules : List ConvertRule) (e t : String) (dflt : ConvertDecision) :
    ConvertDecision :=
  match firstRuleMatch rules e t with
  | some s => .invoke s
  | none => dflt

-- ─── Convert route (`convert.ts`, entry validation) ────────────────

structure UploadedFile where
  originalname : String
deriving DecidableEq, Repr

structure ConvertRequest where
  file : Option UploadedFile
  format : Option String
  targetFormat : Option String

/-- `(req.body.format || req.body.targetFormat || '').toLowerCase().trim()` -/
def normTargetFormat (format targetFormat : Option String) : String :=
  jsTrim (lowerAscii (jsOr format (jsOr targetFormat "")))

/-- Model of `path.extname(name).slice(1).toLowerCase()`: the token
after the last dot, empty when there is no dot or the only dot leads
the name. -/
def extOf (name : String) : String :=
  let parts := jsSplit name '.'
  if parts.length ≤ 1 then ""
  else if parts.length == 2 && parts.headD "" == "" then ""
  else lowerAscii (parts.getLastD "")

inductive RouteDecision where
  | reject (status : Nat) (error : String)
  | rejectUnsupported (status : Nat) (error : String) (supported : SupportedConversions)
  | dispatchTo (s : Service)
deriving DecidableEq, Repr

/-- The decision part of the universal convert route in `convert.ts`:
validate the file and the target format, then dispatch. -/
def convertRoute (req : ConvertRequest) : RouteDecision :=
  match req.file with
  | none => .reject 400 "File required"
  | some f =>
    let targetFormat := normTargetFormat req.format req.targetFormat
    if targetFormat == "" then
      .reject 400 "Target format required (e.g. \"pdf\", \"png\", \"mp4\")"
    else
      match dispatch (extOf f.originalname) targetFormat with
      | .invoke s => .dispatchTo s
      | .unsupported msg sup => .rejectUnsupported 400 msg sup

-- ─── Process runner (`exec.ts`) ────────────────────────────────────

structure ExecResult where
  stdout : String
  stderr : String
  code : Int
deriving DecidableEq, Repr

/-- The terminal event of a spawned child process: a `close` event with
an optional exit code, a spawn-level `error` event, or expiry of the
kill timer. -/
inductive ProcEvent where
  | close (stdout stderr : String) (code : Option Int)
  | spawnError (message : String)
  | timedOut
deriving DecidableEq, Repr

/-- How `exec` settles its promise for each terminal event, translated
from `exec.ts` lines 34-52: `close` resolves with the exit code
defaulted to 1 when null, spawn errors and the timeout reject. -/
def execOutcome (command : String) (args : List String) (timeoutMs : Nat) :
    ProcEvent → Except String ExecResult
  | .close out err code => .ok { stdout := out, stderr := err, code := code.getD 1 }
  | .spawnError m => .error m
  | .timedOut =>
    .error ("Command timed out after " ++ toString timeoutMs ++ "ms: " ++
      command ++ " " ++ String.intercalate " " args)

/-- A promise that resolved (did not reject). -/
def isResolved {ε α : Type} : Except ε α → Bool
  | .ok _ => true
  | .error _ => false

-- ─── PDF operation handlers (`pdf.service.ts`) ─────────────────────
-- A parsed PDF document is its page list.  Pages are identified by
-- natural numbers except for the rotate handler, where a page is
-- identified with its rotation value.

/-- Error raised inside pdf-lib when `copyPages` is handed an index
outside the source page array (the undefined entry is then
dereferenced). -/
def pdfLibOutOfRangeMsg : String := "pdf-lib: page index out of range"

/-- `const indices = pages.map(p => p - 1)` followed by
`copyPages(src, indices)` and `addPage` of every copied page: selects
the given 1-based pages in request order, throwing on any index
outside the source document. -/
def copyPageNumbers (doc : List Nat) (pages : List Int) : Except String (List Nat) :=
  pages.mapM (fun p =>
    if 0 ≤ p - 1 ∧ p - 1 < (doc.length : Int) then .ok (doc.getD (p - 1).toNat 0)
    else .error pdfLibOutOfRangeMsg)

/-- `extractPages` from `pdf.service.ts` (lines 53-60). -/
def extractPages (doc : List Nat) (pages : List Int) : Except String (List Nat) :=
  copyPageNumbers doc pages

/-- The complement set built by `removePages`:
`Array.from({length: total}, (_, i) => i + 1).filter(p => !pagesToRemove.includes(p))`. -/
def complementPages (total : Nat) (pagesToRemove : List Int) : List Int :=
  ((List.range total).map (fun i : Nat => (i : Int) + 1)).filter
    (fun p => !(pagesToRemove.contains p))

/-- `removePages` from `pdf.service.ts` (lines 64-70): extract the
complement of the requested page set. -/
def removePages (doc : List Nat) (pagesToRemove : List Int) : Except String (List Nat) :=
  extractPages doc (complementPages doc.length pagesToRemove)

/-- `mergePdfs` from `pdf.service.ts` (lines 10-18): fold over the
source documents, appending every page of each source in order. -/
def mergePdfs (docs : List (List Nat)) : List Nat :=
  docs.foldl (fun merged src => merged ++ src) []

/-- The page list `1..totalPages` used by `rotatePdf` when no explicit
page list is given. -/
def allPageNumbers (total : Nat) : List Int :=
  (List.range total).map (fun i : Nat => (i : Int) + 1)

/-- The message of the pdf-lib `assertMultiple` check inside
`setRotation` for a rotation that is not a multiple of 90. -/
def setRotationAssertMsg (value : Int) : String :=
  "degreesAngle must be a multiple of 90, but was actually " ++ toString value

/-- The loop body of `rotatePdf`: for each targeted page,
`doc.getPage(p - 1)` (asserting the range) and
`page.setRotation(degrees(current + angle))`, where pdf-lib's
`setRotation` asserts that the new rotation is a multiple of 90 and
throws otherwise.  The document is its per-page rotation list. -/
def rotatePages (angle : Int) : List Int → List Int → Except String (List Int)
  | doc, [] => .ok doc
  | doc, p :: rest =>
    if 1 ≤ p ∧ p ≤ (doc.length : Int) then
      if (doc.getD (p - 1).toNat 0 + angle) % 90 = 0 then
        rotatePages angle (doc.set (p - 1).toNat (doc.getD (p - 1).toNat 0 + angle)) rest
      else .error (setRotationAssertMsg (doc.getD (p - 1).toNat 0 + angle))
    else .error "pdf-lib: getPage index out of range"

/-- `rotatePdf` from `pdf.service.ts` (lines 74-83). -/
def rotatePdf (doc : List Int) (angle : Int) (pages : Option (List Int)) :
    Except String (List Int) :=
  let targets := match pages with
    | some ps => ps
    | none => allPageNumbers doc.length
  rotatePages angle doc targets

-- ─── Split (`pdf.service.ts` and `routes/split.ts`) ────────────────

/-- The inclusive integer loop
`for (let i = lo; i <= hi; i++) pages.push(i)`. -/
def intRange (lo hi : Int) : List Int :=
  if lo > hi then [] else (List.range (hi - lo + 1).toNat).map (fun k : Nat => lo + (k : Int))

/-- The pages contributed by one comma-separated part of a range group,
from `parseRanges` in `pdf.service.ts` (lines 358-378): a part with a
hyphen becomes the clamped inclusive run `max(1, start)..min(total,
end)` (empty when either bound is NaN), a plain part contributes its
number only when it lies in `[1, total]`. -/
def rangePartPages (part : String) (total : Nat) : List Int :=
  if (jsSplit part '-').length ≥ 2 then
    let pieces := jsSplit part '-'
    match jsNumber (pieces.getD 0 ""), jsNumber (pieces.getD 1 "") with
    | some s, some e => intRange (max 1 s) (min (total : Int) e)
    | _, _ => []
  else
    match jsNumber part with
    | some n => if 1 ≤ n ∧ n ≤ (total : Int) then [n] else []
    | none => []

/-- `parseRanges` from `pdf.service.ts`: semicolons separate output
groups, commas and hyphens define page sets within a group, and groups
that end up empty are dropped. -/
def parseRanges (input : String) (total : Nat) : List (List Int) :=
  ((jsSplit input ';').map jsTrim |>.map (fun group =>
    ((jsSplit group ',').map jsTrim).foldl (fun pages part => pages ++ rangePartPages part total)
      [])).filter (fun g => g.length > 0)

/-- `splitPdf` from `pdf.service.ts` (lines 22-36): copy each parsed
group of pages into its own document. -/
def splitPdf (doc : List Nat) (ranges : String) : Except String (List (List Nat)) :=
  (parseRanges ranges doc.length).mapM (fun range => copyPageNumbers doc range)

/-- `splitPdfAll` from `pdf.service.ts` (lines 39-49): one document per
page. -/
def splitPdfAll (doc : List Nat) : List (List Nat) :=
  doc.map (fun p => [p])

inductive SplitDecision where
  | reject (status : Nat) (error : String)
  | singlePdf (doc : List Nat)
  | zipOf (docs : List (List Nat))
  | fail500 (error : String)
deriving DecidableEq, Repr

/-- The decision part of `router.post('/')` in `routes/split.ts`
(lines 674-717): a missing file is a 400; a missing, empty or `all`
range string takes the one-document-per-page path; a thrown error is a
500; exactly one resulting document is sent as a bare PDF and any other
number of documents (including zero) is sent as a zip archive. -/
def splitRoute (file : Option (List Nat)) (ranges : Option String) : SplitDecision :=
  match file with
  | none => .reject 400 "PDF file required"
  | some doc =>
    let useAll : Bool := match ranges with
      | none => true
      | some s => s == "" || s == "all"
    let results : Except String (List (List Nat)) :=
      if useAll then .ok (splitPdfAll doc) else splitPdf doc (ranges.getD "")
    match results with
    | .error m => .fail500 m
    | .ok rs => if rs.length == 1 then .singlePdf (rs.getD 0 []) else .zipOf rs

-- ─── editPdf (`pdf.service.ts`, lines 328-354) ─────────────────────

structure TextEdit where
  text : String
  page : Int
  x : Int
  y : Int
  fontSize : Option Int
  color : Option (Int × Int × Int)
deriving DecidableEq, Repr

/-- One `page.drawText` call as recorded on a page. -/
structure DrawnText where
  text : String
  x : Int
  y : Int
  size : Int
  color : Int × Int × Int
deriving DecidableEq, Repr

/-- The drawn text produced from one edit, with the JavaScript falsy
defaults `edit.x || 50`, `edit.y || 50`, `edit.fontSize || 12` and
`edit.color || {r: 0, g: 0, b: 0}`. -/
def drawnOf (e : TextEdit) : DrawnText where
  text := e.text
  x := if e.x == 0 then 50 else e.x
  y := if e.y == 0 then 50 else e.y
  size := match e.fontSize with
    | some s => if s == 0 then 12 else s
    | none => 12
  color := e.color.getD (0, 0, 0)

/-- The edit loop of `editPdf`: clamp the page index with
`Math.max(0, Math.min(edit.page - 1, pages.length - 1))` and draw on
that page; on an empty document the clamped index still dereferences an
undefined page. -/
def applyEdits : List (List DrawnText) → List TextEdit → Except String (List (List DrawnText))
  | pages, [] => .ok pages
  | pages, e :: rest =>
    let pageIndex := max 0 (min (e.page - 1) ((pages.length : Int) - 1))
    if 0 ≤ pageIndex ∧ pageIndex < (pages.length : Int) then
      applyEdits (pages.set pageIndex.toNat (pages.getD pageIndex.toNat [] ++ [drawnOf e])) rest
    else .error "TypeError: cannot draw on undefined page"

/-- `editPdf` from `pdf.service.ts`: a document is its list of pages,
each page the list of texts drawn on it. -/
def editPdf (doc : List (List DrawnText)) (edits : List TextEdit) :
    Except String (List (List DrawnText)) :=
  applyEdits doc edits

-- ─── Temp workspace manager (`tempfile.ts`) ────────────────────────
-- The file system, as far as these claims need it, is the list of
-- existing temp directories, keyed by number.  `createTempDir` puts a
-- fresh directory (the uuid, an input of each runner) in front;
-- `cleanupTempDir` calls `fs.rmSync(dir, {recursive, force})`, removing
-- the directory and everything below it.

def cleanupTempDir (dir : Nat) (fs : List Nat) : List Nat :=
  fs.filter (fun d => d != dir)

/-- A conversion-service call as the cleanup claims see it: the value
returned (or error thrown) by the body, and the file system after the
`finally` block ran. -/
structure ServiceRun (α : Type) where
  result : Except String α
  fsAfter : List Nat

/-- A qpdf password-operation call: additionally records whether the
alternate-argument-order retry was executed. -/
structure QpdfRun where
  result : Except String (List Nat)
  fsAfter : List Nat
  altCalled : Bool

/-- JavaScript `s || 'dflt'` for error-message defaults. -/
def orDefault (s dflt : String) : String := if s == "" then dflt else s

/-- The `%PDF` magic check of `officeToPdf`:
`pdfBuffer.slice(0, 5).toString('ascii').includes('%PDF')`. -/
def pdfMagicIn5 (buf : List Nat) : Bool :=
  buf.take 4 == [37, 80, 68, 70] || ((buf.drop 1).take 4) == [37, 80, 68, 70]

-- ─── Document service runners (`document.service.ts`) ──────────────

/-- `officeToPdf` (lines 20-58): write the input, run the LibreOffice
converter, require exit code 0 and an existing output, then require a
plausible PDF (≥ 10 bytes starting with the `%PDF` magic); the temp
directory is cleaned up in `finally`. -/
def officeToPdfRun (fs0 : List Nat) (fresh : Nat) (lo : Except String ExecResult)
    (outputExists : Bool) (pdfBuffer : List Nat) : ServiceRun (List Nat) :=
  let tmpDir := fresh
  let fs1 := tmpDir :: fs0
  { result :=
      match lo with
      | .error e => .error e
      | .ok r =>
        if r.code ≠ 0 ∨ ¬outputExists then
          .error ("LibreOffice conversion failed: " ++ orDefault r.stderr "Unknown error")
        else if pdfBuffer.length < 10 ∨ ¬pdfMagicIn5 pdfBuffer then
          .error "LibreOffice produced an invalid PDF file"
        else .ok pdfBuffer,
    fsAfter := cleanupTempDir tmpDir fs1 }

/-- `pdfToOffice` (lines 62-126): run the converter, find the produced
output file, and require at least 100 bytes of content. -/
def pdfToOfficeRun (fs0 : List Nat) (fresh : Nat) (targetFormat : String)
    (lo : Except String ExecResult) (outputFile : Option String)
    (outputBuffer : List Nat) : ServiceRun (List Nat) :=
  let tmpDir := fresh
  let fs1 := tmpDir :: fs0
  { result :=
      match lo with
      | .error e => .error e
      | .ok r =>
        if r.code ≠ 0 then
          .error ("LibreOffice PDF-to-" ++ targetFormat ++ " failed: " ++ r.stderr ++
            ". Note: PDF to editable format conversion may have limitations with fonts and complex layouts.")
        else
          match outputFile with
          | none =>
            .error ("No output file produced for format: " ++ targetFormat ++
              ". This conversion may not be supported.")
          | some _ =>
            if outputBuffer.length < 100 then
              .error ("Conversion produced an unusually small file (" ++
                toString outputBuffer.length ++
                " bytes). The source PDF may not be convertible to " ++ targetFormat ++ ".")
            else .ok outputBuffer,
    fsAfter := cleanupTempDir tmpDir fs1 }

/-- `convertEbook` (lines 136-160). -/
def convertEbookRun (fs0 : List Nat) (fresh : Nat) (calibre : Except String ExecResult)
    (outputExists : Bool) (outputBuffer : List Nat) : ServiceRun (List Nat) :=
  let tmpDir := fresh
  let fs1 := tmpDir :: fs0
  { result :=
      match calibre with
      | .error e => .error e
      | .ok r =>
        if r.code ≠ 0 then
          .error ("Calibre conversion failed: " ++ orDefault r.stderr "Unknown error" ++
            ". Make sure Calibre is installed.")
        else if ¬outputExists then .error "Calibre did not produce output file"
        else if outputBuffer.length < 100 then
          .error ("Calibre produced an unusually small file (" ++
            toString outputBuffer.length ++ " bytes). The ebook may not be convertible.")
        else .ok outputBuffer,
    fsAfter := cleanupTempDir tmpDir fs1 }

-- ─── Video service runners (`video.service.ts`) ────────────────────

/-- The last `n` characters, JavaScript `s.slice(-n)`. -/
def jsSliceLast (s : String) (n : Nat) : String :=
  String.mk (s.data.drop (s.data.length - n))

/-- The error summary built by `convertVideo` on a non-zero exit:
the stderr lines containing `Error`, `error` or `Invalid`, joined with
semicolons, else the last 500 characters of stderr. -/
def ffmpegErrorSummary (stderr : String) : String :=
  let errorLines := (stderr.splitOn "\n").filter
    (fun line => jsIncludes line "Error" || jsIncludes line "error" || jsIncludes line "Invalid")
  if errorLines.length > 0 then String.intercalate "; " errorLines
  else jsSliceLast stderr 500

/-- `convertVideo` (lines 22-130): run ffmpeg, require exit code 0, an
existing output and at least 100 bytes. -/
def convertVideoRun (fs0 : List Nat) (fresh : Nat) (ffmpeg : Except String ExecResult)
    (outputExists : Bool) (outputBuffer : List Nat) : ServiceRun (List Nat) :=
  let tmpDir := fresh
  let fs1 := tmpDir :: fs0
  { result :=
      match ffmpeg with
      | .error e => .error e
      | .ok r =>
        if r.code ≠ 0 then
          .error ("FFmpeg conversion failed: " ++ ffmpegErrorSummary r.stderr)
        else if ¬outputExists then .error "FFmpeg did not produce output file"
        else if outputBuffer.length < 100 then
          .error ("FFmpeg produced an unusually small file (" ++
            toString outputBuffer.length ++ " bytes). Conversion may have failed.")
        else .ok outputBuffer,
    fsAfter := cleanupTempDir tmpDir fs1 }

/-- `getMediaInfo` (lines 140-161): run ffprobe and parse its JSON
stdout (the parse may itself throw). -/
def getMediaInfoRun (fs0 : List Nat) (fresh : Nat) (probe : Except String ExecResult)
    (parsed : Except String String) : ServiceRun String :=
  let tmpDir := fresh
  let fs1 := tmpDir :: fs0
  { result :=
      match probe with
      | .error e => .error e
      | .ok r =>
        if r.code ≠ 0 ∧ r.stdout.length = 0 then .error ("ffprobe failed: " ++ r.stderr)
        else parsed,
    fsAfter := cleanupTempDir tmpDir fs1 }

-- ─── Image service runners (`image.service.ts`) ────────────────────

/-- `convertWithImageMagick` (lines 638-662). -/
def convertWithImageMagickRun (fs0 : List Nat) (fresh : Nat)
    (magick : Except String ExecResult) (outputExists : Bool)
    (outputBuffer : List Nat) : ServiceRun (List Nat) :=
  let tmpDir := fresh
  let fs1 := tmpDir :: fs0
  { result :=
      match magick with
      | .error e => .error e
      | .ok r =>
        if r.code ≠ 0 then
          .error ("ImageMagick convert failed: " ++ orDefault r.stderr "Unknown error")
        else if ¬outputExists then .error "ImageMagick did not produce output file"
        else if outputBuffer.length < 10 then
          .error ("ImageMagick produced invalid output (" ++
            toString outputBuffer.length ++ " bytes)")
        else .ok outputBuffer,
    fsAfter := cleanupTempDir tmpDir fs1 }

/-- `pdfToImages` (lines 570-612): run Ghostscript, read each produced
page image (rejecting any under 100 bytes), and require at least one
page. -/
def pdfToImagesRun (fs0 : List Nat) (fresh : Nat) (gs : Except String ExecResult)
    (pageBuffers : List (List Nat)) : ServiceRun (List (List Nat)) :=
  let tmpDir := fresh
  let fs1 := tmpDir :: fs0
  { result :=
      match gs with
      | .error e => .error e
      | .ok r =>
        if r.code ≠ 0 then
          .error ("PDF to image failed: " ++ orDefault r.stderr "Ghostscript error")
        else
          match pageBuffers.mapM (fun b =>
            if b.length < 100 then
              Except.error ("PDF page conversion produced invalid image (" ++
                toString b.length ++ " bytes)")
            else Except.ok b) with
          | .error e => .error e
          | .ok files =>
            if files.length = 0 then
              .error "Ghostscript did not produce any output images. The PDF may be invalid or empty."
            else .ok files,
    fsAfter := cleanupTempDir tmpDir fs1 }

-- ─── OCR service runners (`ocr.service.ts`) ────────────────────────

/-- `getImageExtension`: sniff the magic bytes at the front of the
buffer (an out-of-range read is `undefined`, which compares unequal). -/
def getImageExtension (b : List Nat) : String :=
  if b.getD 0 0 == 0xFF && b.getD 1 0 == 0xD8 then "jpg"
  else if b.getD 0 0 == 0x89 && b.getD 1 0 == 0x50 then "png"
  else if b.getD 0 0 == 0x47 && b.getD 1 0 == 0x49 then "gif"
  else if b.getD 0 0 == 0x52 && b.getD 1 0 == 0x49 then "webp"
  else if b.getD 0 0 == 0x42 && b.getD 1 0 == 0x4D then "bmp"
  else if b.getD 0 0 == 0x25 && b.getD 1 0 == 0x50 &&
          b.getD 2 0 == 0x44 && b.getD 3 0 == 0x46 then "pdf"
  else "png"

/-- `ocrImage` (lines 12-55): reject PDFs, try the native Tesseract
binary when configured (its own failures are caught and ignored), then
fall back to the in-process OCR engine. -/
def ocrImageRun (fs0 : List Nat) (fresh : Nat) (imageBuffer : List Nat)
    (hasTesseract : Bool) (tess : Except String ExecResult) (txtExists : Bool)
    (txtContent : String) (recognize : Except String String) : ServiceRun String :=
  let tmpDir := fresh
  let fs1 := tmpDir :: fs0
  { result :=
      if getImageExtension imageBuffer == "pdf" then
        .error "PDF files should use the \"Create Searchable PDF\" mode, not \"Extract Text\""
      else
        let nativeText : Option String :=
          if hasTesseract then
            match tess with
            | .ok r => if r.code == 0 && txtExists then some (jsTrim txtContent) else none
            | .error _ => none
          else none
        match nativeText with
        | some t => .ok t
        | none =>
          match recognize with
          | .ok text => .ok text
          | .error m => .error ("OCR failed: " ++ orDefault m "Could not read image"),
    fsAfter := cleanupTempDir tmpDir fs1 }

/-- `ocrPdf` (lines 71-212): try `ocrmypdf` (its rejection is caught),
else rasterize with Ghostscript (a rejection propagates), OCR each page
(all per-page failures are caught), then overlay the text on the
original document — falling back to a synthesized text-only document
when the original cannot be reopened. -/
def ocrPdfRun (fs0 : List Nat) (fresh : Nat) (ocrmypdf : Except String ExecResult)
    (myOutExists : Bool) (myOutContent : List Nat) (gs : Except String ExecResult)
    (pageFiles : List String) (overlay : Except String (List Nat))
    (newDocBuf : List Nat) : ServiceRun (List Nat) :=
  let tmpDir := fresh
  let fs1 := tmpDir :: fs0
  { result :=
      match
        (match ocrmypdf with
         | .ok r => if r.code == 0 && myOutExists then some myOutContent else none
         | .error _ => none) with
      | some buf => .ok buf
      | none =>
        match gs with
        | .error e => .error e
        | .ok gr =>
          if gr.code ≠ 0 then
            .error ("OCR failed: ocrmypdf is not available and Ghostscript could not convert the PDF to images. Error: " ++ gr.stderr)
          else if pageFiles.length = 0 then
            .error "Ghostscript produced no page images from the PDF"
          else
            match overlay with
            | .ok buf => .ok buf
            | .error _ => .ok newDocBuf,
    fsAfter := cleanupTempDir tmpDir fs1 }

/-- The detailed OCR result of `ocrImageDetailed`. -/
structure OcrDetail where
  text : String
  confidence : Int
  words : List String
deriving DecidableEq, Repr

/-- `ocrImageDetailed` (lines 216-272). -/
def ocrImageDetailedRun (fs0 : List Nat) (fresh : Nat) (imageBuffer : List Nat)
    (hasTesseract : Bool) (tess : Except String ExecResult) (txtExists : Bool)
    (txtContent : String) (recognize : Except String OcrDetail) : ServiceRun OcrDetail :=
  let tmpDir := fresh
  let fs1 := tmpDir :: fs0
  { result :=
      if getImageExtension imageBuffer == "pdf" then
        .error "PDF files should use the \"Create Searchable PDF\" mode, not \"Extract Text\""
      else
        let nativeText : Option String :=
          if hasTesseract then
            match tess with
            | .ok r => if r.code == 0 && txtExists then some (jsTrim txtContent) else none
            | .error _ => none
          else none
        match nativeText with
        | some t => .ok { text := t, confidence := 0, words := [] }
        | none =>
          match recognize with
          | .ok detail => .ok detail
          | .error m => .error ("OCR failed: " ++ orDefault m "Could not read image"),
    fsAfter := cleanupTempDir tmpDir fs1 }

-- ─── PDF tool-delegating runners (`pdf.service.ts`) ────────────────

/-- `compressPdf` (lines 191-212). -/
def compressPdfRun (fs0 : List Nat) (fresh : Nat) (gs : Except String ExecResult)
    (outputExists : Bool) (outputBuffer : List Nat) : ServiceRun (List Nat) :=
  let tmpDir := fresh
  let fs1 := tmpDir :: fs0
  { result :=
      match gs with
      | .error e => .error e
      | .ok r =>
        if r.code ≠ 0 ∨ ¬outputExists then
          .error ("Ghostscript compression failed: " ++ r.stderr)
        else .ok outputBuffer,
    fsAfter := cleanupTempDir tmpDir fs1 }

/-- `repairPdf` (lines 216-241): run qpdf with `--replace-input`
(ignoring its result), return the re-read input when it still exists,
else linearize, accepting exit codes 0 and 3. -/
def repairPdfRun (fs0 : List Nat) (fresh : Nat) (rep1 : Except String ExecResult)
    (inputExistsAfter : Bool) (inputContent : List Nat)
    (rep2 : Except String ExecResult) (outputContent : List Nat) : ServiceRun (List Nat) :=
  let tmpDir := fresh
  let fs1 := tmpDir :: fs0
  { result :=
      match rep1 with
      | .error e => .error e
      | .ok _ =>
        if inputExistsAfter then .ok inputContent
        else
          match rep2 with
          | .error e => .error e
          | .ok r2 =>
            if r2.code ≠ 0 ∧ r2.code ≠ 3 then .error ("QPDF repair failed: " ++ r2.stderr)
            else .ok outputContent,
    fsAfter := cleanupTempDir tmpDir fs1 }

/-- `addPassword` (lines 245-283): run qpdf with the primary argument
order; when the exit code is neither 0 nor 3, retry once with the
alternate order; a retry exit code that is neither 0 nor 3 throws, and
a missing output file throws even on a success code. -/
def addPasswordRun (fs0 : List Nat) (fresh : Nat)
    (primary alt : Except String ExecResult) (outputExists : Bool)
    (outputContent : List Nat) : QpdfRun :=
  let tmpDir := fresh
  let fs1 := tmpDir :: fs0
  { result :=
      match primary with
      | .error e => .error e
      | .ok r =>
        if r.code ≠ 0 ∧ r.code ≠ 3 then
          match alt with
          | .error e => .error e
          | .ok ar =>
            if ar.code ≠ 0 ∧ ar.code ≠ 3 then
              .error ("QPDF encrypt failed: " ++ orDefault ar.stderr r.stderr)
            else if ¬outputExists then .error "QPDF did not produce output file"
            else .ok outputContent
        else if ¬outputExists then .error "QPDF did not produce output file"
        else .ok outputContent,
    fsAfter := cleanupTempDir tmpDir fs1,
    altCalled :=
      match primary with
      | .error _ => false
      | .ok r => decide (r.code ≠ 0 ∧ r.code ≠ 3) }

/-- `removePassword` (lines 285-324): run qpdf `--decrypt`; when the
exit code is neither 0 nor 3, retry once with `--replace-input` and on
a retry code of 0 or 3 return the re-read input file; the primary path
additionally requires the output file to exist. -/
def removePasswordRun (fs0 : List Nat) (fresh : Nat)
    (primary alt : Except String ExecResult) (outputExists : Bool)
    (outputContent inputContent : List Nat) : QpdfRun :=
  let tmpDir := fresh
  let fs1 := tmpDir :: fs0
  { result :=
      match primary with
      | .error e => .error e
      | .ok r =>
        if r.code ≠ 0 ∧ r.code ≠ 3 then
          match alt with
          | .error e => .error e
          | .ok ar =>
            if ar.code ≠ 0 ∧ ar.code ≠ 3 then
              .error ("QPDF decrypt failed. Is the password correct? Error: " ++
                orDefault ar.stderr r.stderr)
            else .ok inputContent
        else if ¬outputExists then .error "QPDF did not produce output file"
        else .ok outputContent,
    fsAfter := cleanupTempDir tmpDir fs1,
    altCalled :=
      match primary with
      | .error _ => false
      | .ok r => decide (r.code ≠ 0 ∧ r.code ≠ 3) }

-- ─── Helper lemmas ─────────────────────────────────────────────────

theorem decisionOfRules_nil (e t : String) (d : ConvertDecision) :
    decisionOfRules [] e t d = d := rfl

theorem decisionOfRules_cons (r : ConvertRule) (rest : List ConvertRule)
    (e t : String) (d : ConvertDecision) :
    decisionOfRules (r :: rest) e t d =
      if r.1 e t then ConvertDecision.invoke r.2 else decisionOfRules rest e t d := by
  by_cases h : r.1 e t = true
  · simp [decisionOfRules, firstRuleMatch, h]
  · simp only [Bool.not_eq_true] at h
    simp [decisionOfRules, firstRuleMatch, h]

theorem firstRuleMatch_append (l₁ l₂ : List ConvertRule) (e t : String) :
    firstRuleMatch (l₁ ++ l₂) e t =
      match firstRuleMatch l₁ e t with
      | some s => some s
      | none => firstRuleMatch l₂ e t := by
  induction l₁ with
  | nil => rfl
  | cons r rest ih =>
    simp only [List.cons_append, firstRuleMatch]
    by_cases hc : r.1 e t = true
    · simp [hc]
    · simp only [Bool.not_eq_true] at hc
      simp [hc, ih]

theorem cleanup_removes (dir : Nat) (fs : List Nat) :
    (cleanupTempDir dir fs).contains dir = false := by
  cases h : (cleanupTempDir dir fs).contains dir with
  | false => rfl
  | true =>
    exfalso
    have hm : dir ∈ cleanupTempDir dir fs := List.elem_iff.mp h
    rw [cleanupTempDir] at hm
    have hpred := (List.mem_filter.mp hm).2
    simp at hpred

theorem copyPageNumbers_valid (doc : List Nat) :
    ∀ (ps : List Int), (∀ p ∈ ps, 1 ≤ p ∧ p ≤ (doc.length : Int)) →
      copyPageNumbers doc ps = .ok (ps.map (fun p => doc.getD (p - 1).toNat 0)) := by
  intro ps
  induction ps with
  | nil => intro _; rfl
  | cons p rest ih =>
    intro hv
    have hp := hv p (List.mem_cons_self p rest)
    have hcond : 0 ≤ p - 1 ∧ p - 1 < (doc.length : Int) := by omega
    have hrest := ih (fun q hq => hv q (List.mem_cons_of_mem p hq))
    simp only [copyPageNumbers] at hrest ⊢
    rw [List.mapM_cons, if_pos hcond]
    simp only [hrest]
    rfl

theorem map_getD_range {α : Type} (l : List α) (d : α) :
    (List.range l.length).map (fun i => l.getD i d) = l := by
  apply List.ext_getElem
  · simp
  · intro n h1 h2
    simp only [List.getElem_map, List.getElem_range]
    rw [List.getD_eq_getElem l d h2]

theorem allPageNumbers_bounds (n : Nat) :
    ∀ p ∈ allPageNumbers n, 1 ≤ p ∧ p ≤ (n : Int) := by
  intro p hp
  simp only [allPageNumbers, List.mem_map, List.mem_range] at hp
  obtain ⟨i, hi, rfl⟩ := hp
  omega

theorem extract_allPageNumbers (doc : List Nat) :
    extractPages doc (allPageNumbers doc.length) = .ok doc := by
  rw [extractPages, copyPageNumbers_valid doc _ (allPageNumbers_bounds doc.length)]
  congr 1
  rw [allPageNumbers, List.map_map]
  have heq : ((fun p => doc.getD (p - 1).toNat 0) ∘ fun i : Nat => (i : Int) + 1) =
      fun i : Nat => doc.getD i 0 := by
    funext i
    simp only [Function.comp_apply, Int.add_sub_cancel, Int.toNat_natCast]
  rw [heq, map_getD_range]

theorem complementPages_all (n : Nat) (ps : List Int)
    (h : ∀ p ∈ ps, p < 1 ∨ (n : Int) < p) :
    complementPages n ps = allPageNumbers n := by
  rw [complementPages, allPageNumbers]
  apply List.filter_eq_self.mpr
  intro p hp
  simp only [List.mem_map, List.mem_range] at hp
  obtain ⟨i, hi, rfl⟩ := hp
  cases hcb : ps.contains ((i : Int) + 1) with
  | false => simp
  | true =>
    exfalso
    have hmem : ((i : Int) + 1) ∈ ps := List.elem_iff.mp hcb
    have := h _ hmem
    omega

theorem complementPages_bounds (n : Nat) (ps : List Int) :
    ∀ p ∈ complementPages n ps, 1 ≤ p ∧ p ≤ (n : Int) := by
  intro p hp
  rw [complementPages] at hp
  have hp2 := List.mem_of_mem_filter hp
  simp only [List.mem_map, List.mem_range] at hp2
  obtain ⟨i, hi, rfl⟩ := hp2
  omega

theorem count_allPageNumbers (n i : Nat) (h : i < n) :
    (allPageNumbers n).count ((i : Int) + 1) = 1 := by
  have hnd : (allPageNumbers n).Nodup := by
    apply List.Nodup.map
    · intro a b hab
      dsimp only at hab
      omega
    · exact List.nodup_range n
  have hmem : ((i : Int) + 1) ∈ allPageNumbers n := by
    simp only [allPageNumbers, List.mem_map, List.mem_range]
    exact ⟨i, h, rfl⟩
  exact List.count_eq_one_of_mem hnd hmem

theorem rotatePages_valid (angle : Int) (hang : angle % 90 = 0) :
    ∀ (ts : List Int) (doc : List Int),
      (∀ p ∈ ts, 1 ≤ p ∧ p ≤ (doc.length : Int)) →
      (∀ r ∈ doc, r % 90 = 0) →
      ∃ d2, rotatePages angle doc ts = .ok d2 ∧ d2.length = doc.length ∧
        (∀ r ∈ d2, r % 90 = 0) ∧
        ∀ (i : Nat) (h1 : i < doc.length) (h2 : i < d2.length),
          d2[i] = doc[i] + angle * ((ts.count ((i : Int) + 1) : Nat) : Int) := by
  intro ts
  induction ts with
  | nil =>
    intro doc hv hrot
    refine ⟨doc, rfl, rfl, hrot, ?_⟩
    intro i h1 h2
    simp
  | cons p rest ih =>
    intro doc hv hrot
    have hp := hv p (List.mem_cons_self p rest)
    have hk : (p - 1).toNat < doc.length := by omega
    have hgd : doc.getD (p - 1).toNat 0 % 90 = 0 := by
      rw [List.getD_eq_getElem doc 0 hk]
      exact hrot _ (List.getElem_mem hk)
    have hmul : (doc.getD (p - 1).toNat 0 + angle) % 90 = 0 := by omega
    have hlen1 : (doc.set (p - 1).toNat (doc.getD (p - 1).toNat 0 + angle)).length = doc.length :=
      List.length_set doc _ _
    have hv1 : ∀ q ∈ rest,
        1 ≤ q ∧ q ≤ ((doc.set (p - 1).toNat (doc.getD (p - 1).toNat 0 + angle)).length : Int) := by
      rw [hlen1]
      exact fun q hq => hv q (List.mem_cons_of_mem p hq)
    have hrot1 : ∀ r ∈ doc.set (p - 1).toNat (doc.getD (p - 1).toNat 0 + angle), r % 90 = 0 := by
      intro r hr
      rcases List.mem_or_eq_of_mem_set hr with hmem | heq
      · exact hrot r hmem
      · rw [heq]
        exact hmul
    obtain ⟨d2, h2, hlen2, hrot2, hget⟩ := ih _ hv1 hrot1
    refine ⟨d2, ?_, by rw [hlen2, hlen1], hrot2, ?_⟩
    · simp only [rotatePages]
      rw [if_pos hp, if_pos hmul]
      exact h2
    · intro i hi hi2
      have hi1 : i < (doc.set (p - 1).toNat (doc.getD (p - 1).toNat 0 + angle)).length := by
        rw [hlen1]; exact hi
      have hgi := hget i hi1 hi2
      rw [hgi, List.getElem_set]
      by_cases hki : (p - 1).toNat = i
      · have hpi : p = (i : Int) + 1 := by omega
        have hdk : doc.getD (p - 1).toNat 0 = doc[i] := by
          rw [hki]
          exact List.getD_eq_getElem doc 0 hi
        have hbeq : (p == (i : Int) + 1) = true := by
          rw [beq_iff_eq]; exact hpi
        rw [if_pos hki, hdk, List.count_cons, if_pos hbeq]
        push_cast
        ring
      · have hpi : p ≠ (i : Int) + 1 := by omega
        have hbeq : ¬((p == (i : Int) + 1) = true) := by
          rw [beq_iff_eq]; exact hpi
        rw [if_neg hki, List.count_cons, if_neg hbeq]
        push_cast
        ring

theorem applyEdits_total :
    ∀ (edits : List TextEdit) (doc : List (List DrawnText)), 1 ≤ doc.length →
      ∃ d, applyEdits doc edits = .ok d := by
  intro edits
  induction edits with
  | nil => intro doc _; exact ⟨doc, rfl⟩
  | cons e rest ih =>
    intro doc hlen
    have hcond : 0 ≤ max 0 (min (e.page - 1) ((doc.length : Int) - 1)) ∧
        max 0 (min (e.page - 1) ((doc.length : Int) - 1)) < (doc.length : Int) := by
      constructor
      · exact le_max_left 0 _
      · omega
    simp only [applyEdits]
    rw [if_pos hcond]
    apply ih
    rw [List.length_set]
    exact hlen

-- ─── Claim theorems ────────────────────────────────────────────────

/-- Claim C1: the convert dispatcher evaluates its format-pair rules in
a fixed order and invokes exactly the first matching conversion
service; when no earlier rule matches and the target format is `pdf`
the fallback rule still invokes the office-document converter; and when
no rule at all matches (input `docx`, target `mp4`) the route answers
HTTP 400 with an error message and the supported-domain table, invoking
no conversion service. -/
theorem dispatch_first_match_and_fallback :
    (∀ e t, dispatch e t =
      decisionOfRules convertRules e t
        (ConvertDecision.unsupported (unsupportedMsg e t) getSupportedConversions)) ∧
    (∀ e t, firstRuleMatch earlierConvertRules e t = none → t = "pdf" →
      dispatch e t = ConvertDecision.invoke Service.officeToPdf) ∧
    convertRoute
        { file := some { originalname := "report.docx" },
          format := some "mp4", targetFormat := none } =
      RouteDecision.rejectUnsupported 400
        "Conversion from .docx to .mp4 is not supported" getSupportedConversions := by
  have hmain : ∀ e t, dispatch e t =
      decisionOfRules convertRules e t
        (ConvertDecision.unsupported (unsupportedMsg e t) getSupportedConversions) := by
    intro e t
    simp only [convertRules, earlierConvertRules, fallbackRule,
      List.cons_append, List.nil_append, decisionOfRules_cons, decisionOfRules_nil]
    rfl
  refine ⟨hmain, ?_, ?_⟩
  · intro e t h hpdf
    rw [hmain e t]
    simp only [decisionOfRules, convertRules]
    rw [firstRuleMatch_append, h]
    subst hpdf
    rfl
  · decide

/-- Witness for the fallback conjunct of C1 at a concrete unrecognized
extension. -/
theorem dispatch_first_match_and_fallback_witness :
    dispatch "zzz" "pdf" = ConvertDecision.invoke Service.officeToPdf :=
  dispatch_first_match_and_fallback.2.1 "zzz" "pdf" (by decide) rfl

/-- Claim C7: every convert request whose target-format field, after
lowercasing and trimming, is empty is answered with HTTP 400 (either
the missing-file or the missing-format message) and no conversion
service is dispatched. -/
theorem convert_route_empty_format_rejected (req : ConvertRequest)
    (h : normTargetFormat req.format req.targetFormat = "") :
    (convertRoute req = RouteDecision.reject 400 "File required" ∨
     convertRoute req =
       RouteDecision.reject 400 "Target format required (e.g. \"pdf\", \"png\", \"mp4\")") ∧
    ∀ s, convertRoute req ≠ RouteDecision.dispatchTo s := by
  obtain ⟨file, fmt, tfmt⟩ := req
  cases file with
  | none =>
    refine ⟨Or.inl rfl, ?_⟩
    intro s hs
    simp [convertRoute] at hs
  | some f =>
    have hroute : convertRoute ⟨some f, fmt, tfmt⟩ =
        RouteDecision.reject 400 "Target format required (e.g. \"pdf\", \"png\", \"mp4\")" := by
      simp only [convertRoute]
      rw [h]
      rfl
    refine ⟨Or.inr hroute, ?_⟩
    intro s hs
    rw [hroute] at hs
    exact RouteDecision.noConfusion hs

/-- Witness for C7: a request whose format field is whitespace only. -/
theorem convert_route_empty_format_rejected_witness :
    (convertRoute { file := some { originalname := "a.docx" },
                    format := some "  ", targetFormat := none } =
       RouteDecision.reject 400 "File required" ∨
     convertRoute { file := some { originalname := "a.docx" },
                    format := some "  ", targetFormat := none } =
       RouteDecision.reject 400 "Target format required (e.g. \"pdf\", \"png\", \"mp4\")") ∧
    ∀ s, convertRoute { file := some { originalname := "a.docx" },
                        format := some "  ", targetFormat := none } ≠
      RouteDecision.dispatchTo s :=
  convert_route_empty_format_rejected _ (by decide)

/-- Claim C9: the process runner resolves a `close` event with a null
exit code as exit code 1, resolves every other `close` event with its
code, and rejects exactly on spawn-level errors and timeout expiry. -/
theorem exec_resolution_semantics :
    (∀ (c : String) (a : List String) (tm : Nat) (out err : String),
        execOutcome c a tm (ProcEvent.close out err none) =
          Except.ok { stdout := out, stderr := err, code := 1 }) ∧
    (∀ (c : String) (a : List String) (tm : Nat) (out err : String) (k : Int),
        execOutcome c a tm (ProcEvent.close out err (some k)) =
          Except.ok { stdout := out, stderr := err, code := k }) ∧
    (∀ (c : String) (a : List String) (tm : Nat) (ev : ProcEvent),
        isResolved (execOutcome c a tm ev) = false ↔
          (∃ m, ev = ProcEvent.spawnError m) ∨ ev = ProcEvent.timedOut) := by
  refine ⟨fun _ _ _ _ _ => rfl, fun _ _ _ _ _ _ => rfl, ?_⟩
  intro c a tm ev
  cases ev <;> simp [execOutcome, isResolved]

/-- Counterexample for C3 as stated: `extractPages` does not silently
ignore an out-of-range page number — requesting page 2 of a 1-page
document throws (pdf-lib dereferences an undefined page entry), so the
two operations do not share one silently-ignoring edge-case policy. -/
theorem extractPages_rejects_out_of_range :
    extractPages [0] [(2 : Int)] = Except.error pdfLibOutOfRangeMsg := rfl

/-- C3 as amended: `removePages` is `extractPages` of the complement
set; the complement construction (not a shared clamping policy in
`extractPages`) makes `removePages` total, silently ignoring
out-of-range page numbers, and when every requested page number is
outside `[1, totalPages]` it returns the document with its pages
unchanged. -/
theorem removePages_complement_policy :
    (∀ (doc : List Nat) (ps : List Int),
        removePages doc ps = extractPages doc (complementPages doc.length ps)) ∧
    (∀ (doc : List Nat) (ps : List Int), ∃ kept, removePages doc ps = .ok kept) ∧
    (∀ (doc : List Nat) (ps : List Int),
        (∀ p ∈ ps, p < 1 ∨ (doc.length : Int) < p) → removePages doc ps = .ok doc) := by
  refine ⟨fun doc ps => rfl, ?_, ?_⟩
  · intro doc ps
    rw [removePages, extractPages,
      copyPageNumbers_valid doc _ (complementPages_bounds doc.length ps)]
    exact ⟨_, rfl⟩
  · intro doc ps h
    rw [removePages, complementPages_all doc.length ps h]
    exact extract_allPageNumbers doc

/-- Witness for the amended C3 at a concrete document and an
all-out-of-range request list. -/
theorem removePages_complement_policy_witness :
    removePages [5, 6] [(0 : Int), 7] = .ok [5, 6] :=
  removePages_complement_policy.2.2 [5, 6] [0, 7] (by decide)

/-- Counterexample for C5 as stated: for an angle that is not a
multiple of 90 — e.g. 45, which reaches `rotatePdf` unchecked through
the rotate route — pdf-lib's `setRotation` assertion throws on the
first page, so applying `rotatePdf` twice does not yield the
accumulated per-page rotation the claim promises for every angle. -/
theorem rotate_nonmultiple_of_90_throws :
    (rotatePdf [0] 45 none >>= fun d1 => rotatePdf d1 45 none) =
      Except.error (setRotationAssertMsg 45) ∧
    (rotatePdf [0] 45 none >>= fun d1 => rotatePdf d1 45 none) ≠
      Except.ok (([0] : List Int).map (fun r => r + 2 * 45)) := by
  constructor
  · rfl
  · intro h
    have h2 : (Except.error (setRotationAssertMsg 45) : Except String (List Int)) =
        Except.ok (([0] : List Int).map (fun r => r + 2 * 45)) := h
    exact Except.noConfusion h2

/-- C5 as amended: for angles that are multiples of 90 (the only
rotations pdf-lib's `setRotation` accepts) applied to documents whose
page rotations are multiples of 90, `rotatePdf` adds the requested
angle to each targeted page's existing rotation, so applying it twice
accumulates to twice the angle on every targeted page (all pages when
no page list is given) and pages outside the targeted list keep their
rotation; an angle that is not a multiple of 90 instead throws. -/
theorem rotate_twice_accumulates :
    (∀ (doc : List Int) (a : Int), a % 90 = 0 → (∀ r ∈ doc, r % 90 = 0) →
        (rotatePdf doc a none >>= fun d1 => rotatePdf d1 a none) =
          Except.ok (doc.map (fun r => r + 2 * a))) ∧
    (∀ (doc : List Int) (a : Int) (ts : List Int), a % 90 = 0 → (∀ r ∈ doc, r % 90 = 0) →
        (∀ p ∈ ts, 1 ≤ p ∧ p ≤ (doc.length : Int)) → ts.Nodup →
        ∃ d2, (rotatePdf doc a (some ts) >>= fun d1 => rotatePdf d1 a (some ts)) = .ok d2 ∧
          d2.length = doc.length ∧
          ∀ (i : Nat) (h1 : i < doc.length) (h2 : i < d2.length),
            (((i : Int) + 1) ∈ ts → d2[i] = doc[i] + 2 * a) ∧
            (((i : Int) + 1) ∉ ts → d2[i] = doc[i])) := by
  constructor
  · intro doc a ha hrot
    obtain ⟨d1, h1, hlen1, hrot1, hget1⟩ :=
      rotatePages_valid a ha (allPageNumbers doc.length) doc (allPageNumbers_bounds doc.length)
        hrot
    obtain ⟨d2, h2, hlen2, hrot2, hget2⟩ :=
      rotatePages_valid a ha (allPageNumbers d1.length) d1 (allPageNumbers_bounds d1.length)
        hrot1
    have hfirst : rotatePdf doc a none = .ok d1 := h1
    have hsecond : rotatePdf d1 a none = .ok d2 := h2
    rw [hfirst]
    show rotatePdf d1 a none = _
    rw [hsecond]
    congr 1
    apply List.ext_getElem
    · rw [hlen2, hlen1, List.length_map]
    · intro n hn1 hn2
      have hnd : n < doc.length := by rw [← hlen1, ← hlen2]; exact hn1
      have hn1' : n < d1.length := by rw [hlen1]; exact hnd
      have hc2 := hget2 n hn1' hn1
      have hc1 := hget1 n hnd hn1'
      rw [hc2, hc1]
      rw [show d1.length = doc.length from hlen1] at *
      rw [count_allPageNumbers doc.length n hnd]
      rw [List.getElem_map]
      push_cast
      ring
  · intro doc a ts ha hrot hv hnd
    obtain ⟨d1, h1, hlen1, hrot1, hget1⟩ := rotatePages_valid a ha ts doc hv hrot
    obtain ⟨d2, h2, hlen2, hrot2, hget2⟩ :=
      rotatePages_valid a ha ts d1 (by rw [hlen1]; exact hv) hrot1
    have hfirst : rotatePdf doc a (some ts) = .ok d1 := h1
    have hsecond : rotatePdf d1 a (some ts) = .ok d2 := h2
    refine ⟨d2, ?_, hlen2.trans hlen1, ?_⟩
    · rw [hfirst]
      show rotatePdf d1 a (some ts) = _
      rw [hsecond]
    · intro i hi hi2
      have hi1 : i < d1.length := by rw [hlen1]; exact hi
      have hc2 := hget2 i hi1 hi2
      have hc1 := hget1 i hi hi1
      constructor
      · intro hmem
        rw [hc2, hc1, List.count_eq_one_of_mem hnd hmem]
        push_cast
        ring
      · intro hmem
        rw [hc2, hc1, List.count_eq_zero_of_not_mem hmem]
        push_cast
        ring

/-- Witness for the amended C5: a 2-page document at rotation 0,
rotated twice by 90 degrees on page 1. -/
theorem rotate_twice_accumulates_witness :
    ∃ d2, (rotatePdf [0, 0] 90 (some [1]) >>= fun d1 => rotatePdf d1 90 (some [1])) =
        Except.ok d2 ∧
      d2.length = ([0, 0] : List Int).length ∧
      ∀ (i : Nat) (h1 : i < ([0, 0] : List Int).length) (h2 : i < d2.length),
        (((i : Int) + 1) ∈ ([1] : List Int) → d2[i] = ([0, 0] : List Int)[i] + 2 * 90) ∧
        (((i : Int) + 1) ∉ ([1] : List Int) → d2[i] = ([0, 0] : List Int)[i]) :=
  rotate_twice_accumulates.2 [0, 0] 90 [1] (by decide) (by decide) (by decide) (by decide)

/-- Claim C6: `mergePdfs` concatenates the page sequences of the source
documents in request order, preserving the internal page order of each
source; merging two one-page documents gives the two-page
concatenation. -/
theorem merge_concatenates_in_request_order :
    (∀ (docs : List (List Nat)), mergePdfs docs = docs.flatten) ∧
    (∀ (a b : Nat), mergePdfs [[a], [b]] = [a, b]) := by
  have hgen : ∀ (docs : List (List Nat)) (acc : List Nat),
      docs.foldl (fun merged src => merged ++ src) acc = acc ++ docs.flatten := by
    intro docs
    induction docs with
    | nil => intro acc; simp
    | cons d rest ih => intro acc; simp [ih, List.append_assoc]
  constructor
  · intro docs
    have h := hgen docs []
    simpa [mergePdfs] using h
  · intro a b
    rfl

/-- Claim C10: `editPdf` clamps each edit page number into the valid
range rather than failing: on a document with at least one page it
never throws, an edit whose page number is below 1 draws on the first
page, and an edit whose page number exceeds the page count draws on the
last page. -/
theorem edit_clamps_page_numbers :
    (∀ (doc : List (List DrawnText)) (edits : List TextEdit), 1 ≤ doc.length →
        ∃ d, editPdf doc edits = .ok d) ∧
    (∀ (doc : List (List DrawnText)) (e : TextEdit), 1 ≤ doc.length → e.page < 1 →
        editPdf doc [e] = .ok (doc.set 0 (doc.getD 0 [] ++ [drawnOf e]))) ∧
    (∀ (doc : List (List DrawnText)) (e : TextEdit), 1 ≤ doc.length →
        (doc.length : Int) < e.page →
        editPdf doc [e] = .ok (doc.set (doc.length - 1)
          (doc.getD (doc.length - 1) [] ++ [drawnOf e]))) := by
  refine ⟨fun doc edits h => applyEdits_total edits doc h, ?_, ?_⟩
  · intro doc e hlen hpage
    have hidx : max 0 (min (e.page - 1) ((doc.length : Int) - 1)) = 0 := by omega
    simp only [editPdf, applyEdits, hidx]
    rw [if_pos ⟨le_refl 0, by omega⟩]
    rfl
  · intro doc e hlen hpage
    have hidx : max 0 (min (e.page - 1) ((doc.length : Int) - 1)) = (doc.length : Int) - 1 := by
      omega
    have htn : ((doc.length : Int) - 1).toNat = doc.length - 1 := by omega
    simp only [editPdf, applyEdits, hidx, htn]
    rw [if_pos ⟨by omega, by omega⟩]

/-- Claim C2: every conversion-service call that allocates a temp
workspace passes it to `cleanupTempDir` before returning — the
`finally` action runs on the success path and on every thrown-error
path alike — so whatever the outcome of the external calls, the
allocated temp directory is absent from the file system afterwards,
independently of the periodic sweep. -/
theorem temp_workspace_always_cleaned :
    (∀ fs0 fresh lo outputExists pdfBuffer,
        ((officeToPdfRun fs0 fresh lo outputExists pdfBuffer).fsAfter).contains fresh
          = false) ∧
    (∀ fs0 fresh targetFormat lo outputFile outputBuffer,
        ((pdfToOfficeRun fs0 fresh targetFormat lo outputFile outputBuffer).fsAfter).contains
          fresh = false) ∧
    (∀ fs0 fresh calibre outputExists outputBuffer,
        ((convertEbookRun fs0 fresh calibre outputExists outputBuffer).fsAfter).contains fresh
          = false) ∧
    (∀ fs0 fresh ffmpeg outputExists outputBuffer,
        ((convertVideoRun fs0 fresh ffmpeg outputExists outputBuffer).fsAfter).contains fresh
          = false) ∧
    (∀ fs0 fresh probe parsed,
        ((getMediaInfoRun fs0 fresh probe parsed).fsAfter).contains fresh = false) ∧
    (∀ fs0 fresh magick outputExists outputBuffer,
        ((convertWithImageMagickRun fs0 fresh magick outputExists outputBuffer).fsAfter).contains
          fresh = false) ∧
    (∀ fs0 fresh gs pageBuffers,
        ((pdfToImagesRun fs0 fresh gs pageBuffers).fsAfter).contains fresh = false) ∧
    (∀ fs0 fresh imageBuffer hasTesseract tess txtExists txtContent recognize,
        ((ocrImageRun fs0 fresh imageBuffer hasTesseract tess txtExists txtContent
          recognize).fsAfter).contains fresh = false) ∧
    (∀ fs0 fresh ocrmypdf myOutExists myOutContent gs pageFiles overlay newDocBuf,
        ((ocrPdfRun fs0 fresh ocrmypdf myOutExists myOutContent gs pageFiles overlay
          newDocBuf).fsAfter).contains fresh = false) ∧
    (∀ fs0 fresh imageBuffer hasTesseract tess txtExists txtContent recognize,
        ((ocrImageDetailedRun fs0 fresh imageBuffer hasTesseract tess txtExists txtContent
          recognize).fsAfter).contains fresh = false) ∧
    (∀ fs0 fresh gs outputExists outputBuffer,
        ((compressPdfRun fs0 fresh gs outputExists outputBuffer).fsAfter).contains fresh
          = false) ∧
    (∀ fs0 fresh rep1 inputExistsAfter inputContent rep2 outputContent,
        ((repairPdfRun fs0 fresh rep1 inputExistsAfter inputContent rep2
          outputContent).fsAfter).contains fresh = false) ∧
    (∀ fs0 fresh primary alt outputExists outputContent,
        ((addPasswordRun fs0 fresh primary alt outputExists outputContent).fsAfter).contains
          fresh = false) ∧
    (∀ fs0 fresh primary alt outputExists outputContent inputContent,
        ((removePasswordRun fs0 fresh primary alt outputExists outputContent
          inputContent).fsAfter).contains fresh = false) := by
  refine ⟨?_, ?_, ?_, ?_, ?_, ?_, ?_, ?_, ?_, ?_, ?_, ?_, ?_, ?_⟩ <;>
    (intros; exact cleanup_removes _ _)

/-- Counterexample for C8 as stated: with both qpdf invocations exiting
0 but no output file on disk, `addPassword` still throws — so the
password operations do not throw only when the exit code is neither 0
nor 3. -/
theorem addPassword_missing_output_counterexample :
    (addPasswordRun [] 0 (.ok { stdout := "", stderr := "", code := 0 })
        (.ok { stdout := "", stderr := "", code := 0 }) false []).result =
      .error "QPDF did not produce output file" := rfl

/-- C8 as amended: `addPassword` and `removePassword` treat qpdf exit
code 3 like 0 in the exit-code check — an exit code of 3 (with the
output present where required) succeeds; the alternate argument
ordering is retried exactly once, exactly when the primary exit code is
neither 0 nor 3; and the qpdf-failure error is raised exactly when that
retry also exits with a code that is neither 0 nor 3 — but a missing
output file on the primary path throws even on a success code. -/
theorem password_ops_treat_exit3_as_success :
    (∀ fs0 fresh (r : ExecResult) alt outputExists outputContent,
        (r.code = 0 ∨ r.code = 3) →
        (addPasswordRun fs0 fresh (.ok r) alt outputExists outputContent).altCalled = false) ∧
    (∀ fs0 fresh (r : ExecResult) alt outputExists outputContent,
        r.code ≠ 0 → r.code ≠ 3 →
        (addPasswordRun fs0 fresh (.ok r) alt outputExists outputContent).altCalled = true) ∧
    (∀ fs0 fresh (r : ExecResult) alt outputContent,
        r.code = 3 →
        (addPasswordRun fs0 fresh (.ok r) alt true outputContent).result =
          .ok outputContent) ∧
    (∀ fs0 fresh (r ar : ExecResult) outputExists outputContent,
        r.code ≠ 0 → r.code ≠ 3 → ar.code ≠ 0 → ar.code ≠ 3 →
        (addPasswordRun fs0 fresh (.ok r) (.ok ar) outputExists outputContent).result =
          .error ("QPDF encrypt failed: " ++ orDefault ar.stderr r.stderr)) ∧
    (∀ fs0 fresh (r ar : ExecResult) outputContent,
        r.code ≠ 0 → r.code ≠ 3 → (ar.code = 0 ∨ ar.code = 3) →
        (addPasswordRun fs0 fresh (.ok r) (.ok ar) true outputContent).result =
          .ok outputContent) ∧
    (∀ fs0 fresh (r : ExecResult) alt outputExists outputContent inputContent,
        (r.code = 0 ∨ r.code = 3) →
        (removePasswordRun fs0 fresh (.ok r) alt outputExists outputContent
          inputContent).altCalled = false) ∧
    (∀ fs0 fresh (r : ExecResult) alt outputExists outputContent inputContent,
        r.code ≠ 0 → r.code ≠ 3 →
        (removePasswordRun fs0 fresh (.ok r) alt outputExists outputContent
          inputContent).altCalled = true) ∧
    (∀ fs0 fresh (r : ExecResult) alt outputContent inputContent,
        r.code = 3 →
        (removePasswordRun fs0 fresh (.ok r) alt true outputContent inputContent).result =
          .ok outputContent) ∧
    (∀ fs0 fresh (r ar : ExecResult) outputExists outputContent inputContent,
        r.code ≠ 0 → r.code ≠ 3 → ar.code ≠ 0 → ar.code ≠ 3 →
        (removePasswordRun fs0 fresh (.ok r) (.ok ar) outputExists outputContent
          inputContent).result =
          .error ("QPDF decrypt failed. Is the password correct? Error: " ++
            orDefault ar.stderr r.stderr)) ∧
    (∀ fs0 fresh (r ar : ExecResult) outputExists outputContent inputContent,
        r.code ≠ 0 → r.code ≠ 3 → (ar.code = 0 ∨ ar.code = 3) →
        (removePasswordRun fs0 fresh (.ok r) (.ok ar) outputExists outputContent
          inputContent).result = .ok inputContent) := by
  refine ⟨?_, ?_, ?_, ?_, ?_, ?_, ?_, ?_, ?_, ?_⟩
  · intro fs0 fresh r alt outputExists outputContent h
    simp only [addPasswordRun, decide_eq_false_iff_not]
    omega
  · intro fs0 fresh r alt outputExists outputContent h1 h2
    simp only [addPasswordRun, decide_eq_true_eq]
    exact ⟨h1, h2⟩
  · intro fs0 fresh r alt outputContent h3
    simp only [addPasswordRun]
    rw [if_neg (by omega)]
    simp
  · intro fs0 fresh r ar outputExists outputContent h1 h2 h3 h4
    simp only [addPasswordRun]
    rw [if_pos ⟨h1, h2⟩, if_pos ⟨h3, h4⟩]
  · intro fs0 fresh r ar outputContent h1 h2 h3
    simp only [addPasswordRun]
    rw [if_pos ⟨h1, h2⟩, if_neg (by omega)]
    simp
  · intro fs0 fresh r alt outputExists outputContent inputContent h
    simp only [removePasswordRun, decide_eq_false_iff_not]
    omega
  · intro fs0 fresh r alt outputExists outputContent inputContent h1 h2
    simp only [removePasswordRun, decide_eq_true_eq]
    exact ⟨h1, h2⟩
  · intro fs0 fresh r alt outputContent inputContent h3
    simp only [removePasswordRun]
    rw [if_neg (by omega)]
    simp
  · intro fs0 fresh r ar outputExists outputContent inputContent h1 h2 h3 h4
    simp only [removePasswordRun]
    rw [if_pos ⟨h1, h2⟩, if_pos ⟨h3, h4⟩]
  · intro fs0 fresh r ar outputExists outputContent inputContent h1 h2 h3
    simp only [removePasswordRun]
    rw [if_pos ⟨h1, h2⟩, if_neg (by omega)]

/-- Witness for the amended C8: a primary qpdf exit code of 3 with an
existing output file succeeds. -/
theorem password_ops_treat_exit3_as_success_witness :
    (addPasswordRun [] 0 (.ok { stdout := "", stderr := "w", code := 3 })
        (.ok { stdout := "", stderr := "", code := 0 }) true [1, 2]).result =
      .ok [1, 2] :=
  password_ops_treat_exit3_as_success.2.2.1 [] 0
    { stdout := "", stderr := "w", code := 3 }
    (.ok { stdout := "", stderr := "", code := 0 }) [1, 2] rfl

/-- Counterexample for C4 as stated: a range specification whose page
numbers are all outside `[1, totalPages]` does parse to zero output
groups, but the split route then answers with a success response — a
zip archive with zero entries — not with HTTP 400 (the route only
special-cases exactly one resulting document). -/
theorem split_zero_groups_not_rejected :
    parseRanges "5" 3 = [] ∧
    splitRoute (some [7, 8, 9]) (some "5") = SplitDecision.zipOf [] := by
  constructor
  · decide
  · decide

/-- C4 as amended: a non-empty, non-`all` range specification that
parses to zero output groups yields zero result documents and the
request is answered with a success response carrying an empty zip
archive — no crash, but also no 400; an empty range specification never
reaches the range parser and instead takes the split-every-page
path. -/
theorem split_zero_groups_empty_zip :
    (∀ (doc : List Nat) (r : String), r ≠ "" → r ≠ "all" →
        parseRanges r doc.length = [] →
        splitRoute (some doc) (some r) = SplitDecision.zipOf []) ∧
    (∀ (doc : List Nat),
        splitRoute (some doc) (some "") =
          (if (splitPdfAll doc).length == 1 then
            SplitDecision.singlePdf ((splitPdfAll doc).getD 0 [])
           else SplitDecision.zipOf (splitPdfAll doc))) := by
  constructor
  · intro doc r h1 h2 hp
    have huse : (r == "" || r == "all") = false := by
      simp only [Bool.or_eq_false_iff, beq_eq_false_iff_ne]
      exact ⟨h1, h2⟩
    have hsplit : splitPdf doc r = .ok [] := by
      rw [splitPdf, hp]
      rfl
    simp only [splitRoute, huse, Bool.false_eq_true, if_false, Option.getD_some, hsplit]
    rfl
  · intro doc
    rfl

/-- Witness for the amended C4 at a 3-page document and the
all-out-of-range range string `"5"`. -/
theorem split_zero_groups_empty_zip_witness :
    splitRoute (some [7, 8, 9]) (some "5") = SplitDecision.zipOf [] :=
  split_zero_groups_empty_zip.1 [7, 8, 9] "5" (by decide) (by decide) (by decide)

/-- Witness for C10: an edit aimed at page 0 of a one-page document
lands on the first page. -/
theorem edit_clamps_page_numbers_witness :
    editPdf [[]] [{ text := "hi", page := 0, x := 3, y := 4, fontSize := none, color := none }] =
      .ok (([[]] : List (List DrawnText)).set 0 (([[]] : List (List DrawnText)).getD 0 [] ++
        [drawnOf { text := "hi", page := 0, x := 3, y := 4, fontSize := none, color := none }])) :=
  edit_clamps_page_numbers.2.1 [[]]
    { text := "hi", page := 0, x := 3, y := 4, fontSize := none, color := none }
    (by decide) (by decide)

end Morphic
